import Mathlib

/-!
Verification of the 2D rigid-body physics engine core.

Shallow embedding of the TypeScript sources over the real numbers:
JavaScript numbers are modelled as elements of `ℝ` (the idealised
real-arithmetic semantics; `Math.sqrt` becomes `Real.sqrt`, `Math.sign`
becomes `Real.sign`, `Math.min`/`Math.max` become `min`/`max`), methods
that throw become `Except String`-valued functions, and in-place object
mutation becomes explicit state passing of immutable records.

Embedded files:
- `src/classes/Vector.ts` — `Vector`
- `src/classes/RigidBody.ts` — `RigidBody`, `clearAccumulators`, `integrate`
- `src/classes/Force.ts` — `Force`, `ForceRegistry`, `updateForces`
- `src/classes/PhysicsWorld.ts` — `PhysicsWorld`, `step`,
  `resolveCollisions` (per-contact body `resolveContact`),
  `getRelativeVelocity`
- `src/sims/CollisionDectector.ts` — `detectCollision` (the legacy method
  that `PhysicsWorld.step` invokes), `broadPhase`, `isValidAABB`
- `src/classes/collision/CollisionInfo.ts` — `CollisionInfo`
- `src/classes/collisions/AABB/AABBCollisions.ts` — `AABBAABBAlgorithm`
- `src/classes/collisions/circle/CircleCollisions.ts` —
  `CircleCircleAlgorithm`
- `src/classes/shapes/CircleShape.ts` — `CircleShape`, its `getAABB` and
  the circle branch of `intersects`
- `src/classes/shapes/RectangleShape.ts` — `RectangleShape.getAABB`
-/

namespace Engine

/-- Two-dimensional vector from `src/classes/Vector.ts`: two real components, every
operation returns a new value. -/
structure Vector where
  x : ℝ
  y : ℝ

/-- Source `Vector.add` from `Vector.ts` line 74. -/
def Vector.add (v other : Vector) : Vector :=
  ⟨v.x + other.x, v.y + other.y⟩

/-- Source `Vector.subtract` from `Vector.ts` line 90. -/
def Vector.subtract (v other : Vector) : Vector :=
  ⟨v.x - other.x, v.y - other.y⟩

/-- Source `Vector.multiply` from `Vector.ts` line 106: scales by a scalar,
computing `scalar * component`. -/
def Vector.multiply (v : Vector) (scalar : ℝ) : Vector :=
  ⟨scalar * v.x, scalar * v.y⟩

/-- Source `Vector.dot` from `Vector.ts` line 122. -/
def Vector.dot (v other : Vector) : ℝ :=
  v.x * other.x + v.y * other.y

/-- Source `Vector.cross` from `Vector.ts` line 139: the scalar z-component of
the 3D cross product. -/
def Vector.cross (v other : Vector) : ℝ :=
  v.x * other.y - v.y * other.x

/-- Source `Vector.magnitude` from `Vector.ts` line 54:
`Math.sqrt(x^2 + y^2)`.  The undefined-component guard of the source
cannot fire in the embedding because both components always exist. -/
noncomputable def Vector.magnitude (v : Vector) : ℝ :=
  Real.sqrt (v.x ^ 2 + v.y ^ 2)

/-- Source `Vector.lengthSquared` from `Vector.ts` line 188. -/
def Vector.lengthSquared (v : Vector) : ℝ :=
  v.x * v.x + v.y * v.y

/-- Source `Vector.normalize` from `Vector.ts` line 180: returns the zero vector
when the magnitude is zero, otherwise divides both components by the
magnitude. -/
noncomputable def Vector.normalize (v : Vector) : Vector :=
  if v.magnitude = 0 then ⟨0, 0⟩ else ⟨v.x / v.magnitude, v.y / v.magnitude⟩

/-- Rigid-body state from `src/classes/RigidBody.ts`.

The fields `mass` through `angularDamping` are the declared class fields
(lines 23-91).  The last three fields — `inverseMass`, `inverseInertia`
and `restitution` — are not declared in `RigidBody.ts` but are dynamic
JavaScript properties of the same objects: `PhysicsEntity.
updateMassFromDensity` writes `body.inverseMass`, and
`PhysicsWorld.resolveCollisions` (PhysicsWorld.ts lines 115-151) reads
`body.inverseMass`, `body.inverseInertia` and `body.restitution`.  The
embedding therefore carries them as ordinary fields of the state. -/
structure RigidBody where
  mass : ℝ
  position : Vector
  velocity : Vector
  acceleration : Vector
  forceAccumulator : Vector
  torqueAccumulator : ℝ
  rotation : ℝ
  angularVelocity : ℝ
  angularAcceleration : ℝ
  momentOfInertia : ℝ
  linearDamping : ℝ
  angularDamping : ℝ
  inverseMass : ℝ
  inverseInertia : ℝ
  restitution : ℝ

/-- Source `RigidBody.addForce` from `RigidBody.ts` line 137 (success path: the
null-argument guard cannot fire in the embedding, where a `Vector`
argument always exists). -/
def RigidBody.addForce (b : RigidBody) (force : Vector) : RigidBody :=
  { b with forceAccumulator := b.forceAccumulator.add force }

/-- Source `RigidBody.addTorque` from `RigidBody.ts` line 160 (success path). -/
def RigidBody.addTorque (b : RigidBody) (torque : ℝ) : RigidBody :=
  { b with torqueAccumulator := b.torqueAccumulator + torque }

/-- Source `RigidBody.clearAccumulators` from `RigidBody.ts` line 179. -/
def RigidBody.clearAccumulators (b : RigidBody) : RigidBody :=
  { b with forceAccumulator := ⟨0, 0⟩, torqueAccumulator := 0 }

/-- The success path of `RigidBody.integrate` from `RigidBody.ts`
lines 209-228, in the exact order of the source: acceleration from the
accumulators, velocity update, position update from the updated
velocity, linear damping on the updated velocity, angular velocity
update, rotation update from the updated angular velocity, angular
damping, and finally `clearAccumulators`. -/
noncomputable def RigidBody.integrateBody (b : RigidBody) (dt : ℝ) : RigidBody :=
  let acceleration := b.forceAccumulator.multiply (1 / b.mass)
  let angularAcceleration := b.torqueAccumulator / b.momentOfInertia
  let v1 := b.velocity.add (acceleration.multiply dt)
  let p1 := b.position.add (v1.multiply dt)
  let v2 := v1.multiply b.linearDamping
  let w1 := b.angularVelocity + angularAcceleration * dt
  let r1 := b.rotation + w1 * dt
  let w2 := w1 * b.angularDamping
  RigidBody.clearAccumulators
    { b with velocity := v2, position := p1, angularVelocity := w2, rotation := r1 }

/-- Source `RigidBody.integrate` from `RigidBody.ts` lines 204-229: throws when
`dt <= 0`, otherwise updates the state as in `integrateBody`. -/
noncomputable def RigidBody.integrate (b : RigidBody) (dt : ℝ) : Except String RigidBody :=
  if dt ≤ 0 then Except.error "Time step must be greater than zero"
  else Except.ok (b.integrateBody dt)

/-- A force generator, modelled by its `apply` method
(`src/classes/Force.ts`): a function that turns a body into the body
with the generator's contribution accumulated (the concrete generators
call `addForce`/`addTorque`). -/
def Force := RigidBody → RigidBody

/-- Folding a body through a list of force generators: the inner
`forces.forEach(force => force.apply(body))` loop of
`ForceRegistry.updateForces` (`Force.ts` line 148). -/
def applyForces (forces : List Force) (b : RigidBody) : RigidBody :=
  forces.foldl (fun acc f => f acc) b

/-- Source `ForceRegistry` from `src/classes/Force.ts` lines 89-155: a map from
bodies to their force lists, modelled as an association list. -/
structure ForceRegistry where
  forceBodyPairs : List (RigidBody × List Force)

/-- The success path of `ForceRegistry.updateForces` (`Force.ts`
lines 147-153): first apply every registered force to its body, then
integrate every registered body.  The inner `body.integrate(dt)` call
cannot throw here because the caller has already established `dt > 0`,
so its success path `integrateBody` is used directly. -/
noncomputable def ForceRegistry.updateForcesRun (reg : ForceRegistry) (dt : ℝ) :
    ForceRegistry :=
  let applied := reg.forceBodyPairs.map (fun p => (applyForces p.2 p.1, p.2))
  ⟨applied.map (fun p => (p.1.integrateBody dt, p.2))⟩

/-- Source `ForceRegistry.updateForces` from `Force.ts` lines 144-154: throws
when `dt <= 0`, otherwise applies all forces and integrates all
registered bodies. -/
noncomputable def ForceRegistry.updateForces (reg : ForceRegistry) (dt : ℝ) :
    Except String ForceRegistry :=
  if dt ≤ 0 then Except.error "Invalid time step, must be greater than 0."
  else Except.ok (reg.updateForcesRun dt)

/-- Axis-aligned bounding box, the `AABB` record shape used across the
sources (`{minX, minY, maxX, maxY}`). -/
structure AABB where
  minX : ℝ
  minY : ℝ
  maxX : ℝ
  maxY : ℝ

/-- Contact record from `src/classes/collision/CollisionInfo.ts`: both
bodies, the collision normal (from A to B), the penetration depth and a
single contact point. -/
structure CollisionInfo where
  bodyA : RigidBody
  bodyB : RigidBody
  normal : Vector
  depth : ℝ
  contactPoint : Vector

/-- Source `CollisionPair` from `src/sims/CollisionDectector.ts` lines 23-27. -/
structure CollisionPair where
  bodyA : RigidBody
  bodyB : RigidBody
  info : CollisionInfo

/-- Circle geometry from `src/classes/shapes/CircleShape.ts`: a center
and a radius. -/
structure CircleShape where
  center : Vector
  radius : ℝ

/-- Source `CircleShape.getAABB` from `CircleShape.ts` lines 59-66: returns the
constant record `{minX: 0, minY: 0, maxX: 0, maxY: 0}`, ignoring the
circle's center and radius. -/
def CircleShape.getAABB (_ : CircleShape) : AABB :=
  ⟨0, 0, 0, 0⟩

/-- The `ShapeType.CIRCLE` branch of `CircleShape.intersects`
(`CircleShape.ts` lines 42-46): the distance between the centers is at
most the sum of the radii. -/
noncomputable def CircleShape.intersectsCircle (c other : CircleShape) : Prop :=
  (c.center.subtract other.center).magnitude ≤ c.radius + other.radius

/-- Rectangle geometry from `src/classes/shapes/RectangleShape.ts`:
position (min corner), width and height. -/
structure RectangleShape where
  position : Vector
  width : ℝ
  height : ℝ

/-- Source `RectangleShape.getAABB` from `RectangleShape.ts` lines 64-70. -/
def RectangleShape.getAABB (r : RectangleShape) : AABB :=
  ⟨r.position.x, r.position.y, r.position.x + r.width, r.position.y + r.height⟩

/-- Closed sum of the shape variants the verified claims touch; the
broad phase dispatches `getAABB` through the shape attached to a body. -/
inductive ShapeVal where
  | circle (c : CircleShape)
  | rectangle (r : RectangleShape)

/-- Virtual dispatch of `shape.getAABB()` over the shape variants. -/
def ShapeVal.getAABB : ShapeVal → AABB
  | .circle c => c.getAABB
  | .rectangle r => r.getAABB

/-- A physics entity as consumed by the narrow-phase algorithm classes
(`src/classes/components/PhysicsEntity.ts`): a body together with its
shape.  The transform and material components are omitted: none of the
verified code paths reads them. -/
structure PhysicsEntity where
  body : RigidBody
  shape : ShapeVal

/-- Source `CircleCircleAlgorithm.detect` from
`src/classes/collisions/circle/CircleCollisions.ts` lines 5-10: the
method body is an unimplemented TODO stub that returns `null` for every
pair of entities. -/
def CircleCircleAlgorithm.detect (_ _ : PhysicsEntity) : Option CollisionInfo :=
  none

/-- Source `AABBAABBAlgorithm.aabbOverlap` from
`src/classes/collisions/AABB/AABBCollisions.ts` lines 74-77. -/
def aabbOverlap (aabb1 aabb2 : AABB) : Prop :=
  aabb1.maxX ≥ aabb2.minX ∧ aabb1.minX ≤ aabb2.maxX ∧
  aabb1.maxY ≥ aabb2.minY ∧ aabb1.minY ≤ aabb2.maxY

open Classical in
/-- Source `AABBAABBAlgorithm.detect` from `AABBCollisions.ts` lines 10-66.
The source method reads each entity's world AABB
(`entity.getWorldAABB()`) and then works only with the two boxes; the
embedding takes the two world AABBs (and the two bodies stored into the
resulting `CollisionInfo`) directly.  The `try`/`catch` of the source
only guards the world-AABB computation, which cannot fail here. -/
noncomputable def AABBAABBAlgorithm.detect (bodyA bodyB : RigidBody)
    (aabbA aabbB : AABB) : Option CollisionInfo :=
  if ¬ aabbOverlap aabbA aabbB then none
  else
    let overlapX := min aabbA.maxX aabbB.maxX - max aabbA.minX aabbB.minX
    let overlapY := min aabbA.maxY aabbB.maxY - max aabbA.minY aabbB.minY
    let nd : Vector × ℝ :=
      if overlapX < overlapY then
        (⟨if (aabbA.minX + aabbA.maxX) / 2 < (aabbB.minX + aabbB.maxX) / 2
            then 1 else -1, 0⟩, overlapX)
      else
        (⟨0, if (aabbA.minY + aabbA.maxY) / 2 < (aabbB.minY + aabbB.maxY) / 2
            then 1 else -1⟩, overlapY)
    let contactPoint : Vector :=
      ⟨(max aabbA.minX aabbB.minX + min aabbA.maxX aabbB.maxX) / 2,
       (max aabbA.minY aabbB.minY + min aabbA.maxY aabbB.maxY) / 2⟩
    some ⟨bodyA, bodyB, nd.1, nd.2, contactPoint⟩

/-- Source `PhysicsWorld.getRelativeVelocity` from
`src/classes/PhysicsWorld.ts` lines 170-180: the relative velocity of
the two bodies at the contact point, each body contributing its linear
velocity plus the perpendicular angular term
`(-w * (p.y - pos.y), w * (p.x - pos.x))`. -/
def getRelativeVelocity (bodyA bodyB : RigidBody) (contactPoint : Vector) : Vector :=
  let velA := bodyA.velocity.add
    ⟨-bodyA.angularVelocity * (contactPoint.y - bodyA.position.y),
      bodyA.angularVelocity * (contactPoint.x - bodyA.position.x)⟩
  let velB := bodyB.velocity.add
    ⟨-bodyB.angularVelocity * (contactPoint.y - bodyB.position.y),
      bodyB.angularVelocity * (contactPoint.x - bodyB.position.x)⟩
  velB.subtract velA

open Classical in
/-- The body of the per-contact loop of `PhysicsWorld.resolveCollisions`
(`PhysicsWorld.ts` lines 104-167), acting on one contact: skip when the
bodies separate, otherwise apply the restitution impulse, the positional
correction (when `depth > 0.01`) and the friction impulse.  The source
mutates the two body objects in place; the embedding returns the updated
pair.  Reads of `bodyA.inverseMass` etc. after earlier in-place writes
are faithful because resolution never writes those fields. -/
noncomputable def resolveContact (bodyA bodyB : RigidBody) (info : CollisionInfo) :
    RigidBody × RigidBody :=
  let rv := getRelativeVelocity bodyA bodyB info.contactPoint
  if 0 < rv.dot info.normal then (bodyA, bodyB)
  else
    let cor := min bodyA.restitution bodyB.restitution
    let normal := info.normal
    let rA := info.contactPoint.subtract bodyA.position
    let rB := info.contactPoint.subtract bodyB.position
    let invMassSum := bodyA.inverseMass + bodyB.inverseMass
    let rotationalEffects :=
      bodyA.inverseInertia * rA.cross normal ^ 2 +
      bodyB.inverseInertia * rB.cross normal ^ 2
    let impulseDenominator := invMassSum + rotationalEffects
    let j := -(1 + cor) * rv.dot normal / impulseDenominator
    let impulse := normal.multiply j
    let aImp := { bodyA with
      velocity := bodyA.velocity.subtract (impulse.multiply bodyA.inverseMass),
      angularVelocity := bodyA.angularVelocity - bodyA.inverseInertia * rA.cross impulse }
    let bImp := { bodyB with
      velocity := bodyB.velocity.add (impulse.multiply bodyB.inverseMass),
      angularVelocity := bodyB.angularVelocity + bodyB.inverseInertia * rB.cross impulse }
    let correction := normal.multiply (max (info.depth - 0.01) 0 / invMassSum * 0.8)
    let aPos := if 0.01 < info.depth then
        { aImp with position := aImp.position.subtract (correction.multiply bodyA.inverseMass) }
      else aImp
    let bPos := if 0.01 < info.depth then
        { bImp with position := bImp.position.add (correction.multiply bodyB.inverseMass) }
      else bImp
    let tangent := (rv.subtract (normal.multiply (rv.dot normal))).normalize
    if 0.001 < tangent.lengthSquared then
      let jt := -(rv.dot tangent) / impulseDenominator
      let jtClamped := min |jt| (j * 0.2) * Real.sign jt
      let frictionImpulse := tangent.multiply jtClamped
      ({ aPos with velocity := aPos.velocity.subtract (frictionImpulse.multiply bodyA.inverseMass) },
       { bPos with velocity := bPos.velocity.add (frictionImpulse.multiply bodyB.inverseMass) })
    else (aPos, bPos)

/-- Source `PhysicsWorld.resolveCollisions` from `PhysicsWorld.ts`
lines 101-168: each contact pair's two bodies are resolved by the loop
body `resolveContact`.  The returned list pairs each contact with the
post-resolution states of its two bodies. -/
noncomputable def resolveCollisions (collisions : List CollisionPair) :
    List (RigidBody × RigidBody) :=
  collisions.map (fun pair => resolveContact pair.bodyA pair.bodyB pair.info)

/-- Source `CollisionDectector.detectCollision` from
`src/sims/CollisionDectector.ts` line 148 — the deprecated legacy method
that `PhysicsWorld.step` invokes: its entire body is `return [];`. -/
def CollisionDectector.detectCollision (_ : List RigidBody) : List CollisionPair :=
  []

/-- Source `CollisionDectector.isValidAABB` from `CollisionDectector.ts`
lines 133-142.  The `isFinite` conjuncts of the source are identically
true in the real-number model (ℝ has no NaN or infinite values), so only
the `min <= max` conjuncts remain. -/
def isValidAABB (aabb : AABB) : Prop :=
  aabb.minX ≤ aabb.maxX ∧ aabb.minY ≤ aabb.maxY

/-- A rigid body as seen by the broad phase: `CollisionDectector.
broadPhase` reads the dynamic `shape` property of each body
(`CollisionDectector.ts` line 71), which may be absent. -/
structure BPBody where
  body : RigidBody
  shape : Option ShapeVal

/-- Whether the inner loop of `CollisionDectector.broadPhase`
(`CollisionDectector.ts` lines 71-87) pushes the pair `(a, b)`: both
bodies have shapes, both world AABBs (obtained from `shape.getAABB()`)
are valid, and the boxes overlap on both axes. -/
def broadPhasePasses (a b : BPBody) : Prop :=
  match a.shape, b.shape with
  | some sa, some sb =>
    let aabbA := sa.getAABB
    let aabbB := sb.getAABB
    (isValidAABB aabbA ∧ isValidAABB aabbB) ∧
    ((aabbA.maxX ≥ aabbB.minX ∧ aabbB.maxX ≥ aabbA.minX) ∧
     (aabbA.maxY ≥ aabbB.minY ∧ aabbB.maxY ≥ aabbA.minY))
  | _, _ => False

open Classical in
/-- The inner `j` loop of `CollisionDectector.broadPhase` for a fixed
first body. -/
noncomputable def broadPhaseInner (a : BPBody) : List BPBody → List (BPBody × BPBody)
  | [] => []
  | b :: rest =>
    (if broadPhasePasses a b then [(a, b)] else []) ++ broadPhaseInner a rest

/-- Source `CollisionDectector.broadPhase` from `CollisionDectector.ts`
lines 63-96: every unordered pair `(i, j)` with `i < j` that passes the
shape, validity and overlap checks. -/
noncomputable def broadPhase : List BPBody → List (BPBody × BPBody)
  | [] => []
  | a :: rest => broadPhaseInner a rest ++ broadPhase rest

/-- Source `PhysicsWorld` state from `src/classes/PhysicsWorld.ts`: the tracked
bodies and the force registry (the collision detector holds no state
that `step` reads). -/
structure PhysicsWorld where
  bodies : List RigidBody
  forceRegistry : ForceRegistry

/-- The final loop of `PhysicsWorld.step` (`PhysicsWorld.ts`
lines 87-89): integrate every tracked body in order, propagating the
first thrown error. -/
noncomputable def integrateAll : List RigidBody → ℝ → Except String (List RigidBody)
  | [], _ => Except.ok []
  | b :: rest, dt =>
    match b.integrate dt with
    | Except.error e => Except.error e
    | Except.ok b' =>
      match integrateAll rest dt with
      | Except.error e => Except.error e
      | Except.ok rest' => Except.ok (b' :: rest')

/-- Source `PhysicsWorld.step` from `PhysicsWorld.ts` lines 78-90: reject
`dt <= 0`, then update forces, then detect collisions over the tracked
bodies, then resolve the detected contacts, then integrate every tracked
body.  In the source, `resolveCollisions` mutates only bodies reachable
from the contact list; `detectCollision` returns `[]` on every input
(CollisionDectector.ts line 148), so the resolution phase touches no
tracked body and the embedding threads the (always empty) resolution
result through without feeding it back into the body list. -/
noncomputable def PhysicsWorld.step (w : PhysicsWorld) (dt : ℝ) :
    Except String PhysicsWorld :=
  if dt ≤ 0 then Except.error "Time step must be positive"
  else
    match w.forceRegistry.updateForces dt with
    | Except.error e => Except.error e
    | Except.ok reg =>
      let collisionPairs := CollisionDectector.detectCollision w.bodies
      let _resolved := resolveCollisions collisionPairs
      match integrateAll w.bodies dt with
      | Except.error e => Except.error e
      | Except.ok newBodies => Except.ok ⟨newBodies, reg⟩

/-! Concrete sample states, used by the witness and counterexample
theorems below.  `baseBody` carries the `RigidBody` constructor defaults
(`RigidBody.ts` lines 106-119) together with sample values for the three
dynamic properties (`inverseMass = 1/mass`, `inverseInertia`,
`restitution`). -/

/-- A body with the constructor defaults: unit mass, unit moment of
inertia, at rest at the origin, damping `0.99`. -/
def baseBody : RigidBody :=
  { mass := 1, position := ⟨0, 0⟩, velocity := ⟨0, 0⟩, acceleration := ⟨0, 0⟩,
    forceAccumulator := ⟨0, 0⟩, torqueAccumulator := 0, rotation := 0,
    angularVelocity := 0, angularAcceleration := 0, momentOfInertia := 1,
    linearDamping := 0.99, angularDamping := 0.99,
    inverseMass := 1, inverseInertia := 1, restitution := 0 }

/-- A static body in the sense of the specification
(`inverseMass = inverseInertia = 0`) with a nonzero accumulated force. -/
def staticBodyEx : RigidBody :=
  { baseBody with inverseMass := 0, inverseInertia := 0, forceAccumulator := ⟨1, 0⟩ }

/-- A dynamic body at `(2, 0)` moving toward the origin. -/
def approachBodyEx : RigidBody :=
  { baseBody with position := ⟨2, 0⟩, velocity := ⟨-1, 0⟩ }

/-- A dynamic body at `(2, 0)` moving away from the origin. -/
def separatingBodyEx : RigidBody :=
  { baseBody with position := ⟨2, 0⟩, velocity := ⟨1, 0⟩ }

/-- A contact between `staticBodyEx` and `approachBodyEx`. -/
def contactInfoEx : CollisionInfo :=
  ⟨staticBodyEx, approachBodyEx, ⟨1, 0⟩, 0.5, ⟨1, 0⟩⟩

/-- A contact between `staticBodyEx` and `separatingBodyEx`. -/
def contactInfoSep : CollisionInfo :=
  ⟨staticBodyEx, separatingBodyEx, ⟨1, 0⟩, 0.5, ⟨1, 0⟩⟩

/-- A sample force generator: constant downward gravity accumulated via
`addForce`, as `GravityForce.apply` does. -/
def gravityForceEx : Force :=
  fun b => b.addForce ⟨0, -9.8⟩

/-- A registry with one body under one force. -/
def registryEx : ForceRegistry :=
  ⟨[(baseBody, [gravityForceEx])]⟩

/-- A world tracking one body, with an empty force registry. -/
def worldEx : PhysicsWorld :=
  ⟨[baseBody], ⟨[]⟩⟩

/-- A circle entity of radius 1 at the origin. -/
def circleEntityEx : PhysicsEntity :=
  ⟨baseBody, ShapeVal.circle ⟨⟨0, 0⟩, 1⟩⟩

/-- The box `[-1, -1, 1, 1]` of the specification's AABB test vector. -/
def aabbAEx : AABB := ⟨-1, -1, 1, 1⟩

/-- The box `[-1, -1, 1, 1]` translated to center `(1, 0)`. -/
def aabbBEx : AABB := ⟨0, -1, 2, 1⟩

/-! Helper lemmas shared by the claim theorems. -/

/-- Scaling by the scalar zero yields the zero vector. -/
@[simp]
theorem Vector.multiply_zero (v : Vector) : v.multiply 0 = ⟨0, 0⟩ := by
  simp [Vector.multiply]

/-- Subtracting the zero vector is the identity. -/
@[simp]
theorem Vector.subtract_zero_vec (v : Vector) : v.subtract ⟨0, 0⟩ = v := by
  simp [Vector.subtract]

/-- Adding the zero vector is the identity. -/
@[simp]
theorem Vector.add_zero_vec (v : Vector) : v.add ⟨0, 0⟩ = v := by
  simp [Vector.add]

/-- One integration step always leaves both accumulators cleared. -/
theorem integrateBody_clears (b : RigidBody) (dt : ℝ) :
    (b.integrateBody dt).forceAccumulator = ⟨0, 0⟩ ∧
    (b.integrateBody dt).torqueAccumulator = 0 := by
  simp [RigidBody.integrateBody, RigidBody.clearAccumulators]

/-- C3: the collision-detection method that `PhysicsWorld.step` invokes,
`CollisionDectector.detectCollision`, returns the empty list for every
body list, so the resolution phase of every step resolves no contact: no
collision impulse, friction impulse or positional correction is ever
applied to any body by a `step` call. -/
theorem detectCollision_returns_empty :
    (∀ bodies : List RigidBody, CollisionDectector.detectCollision bodies = []) ∧
    (∀ bodies : List RigidBody,
      resolveCollisions (CollisionDectector.detectCollision bodies) = []) :=
  ⟨fun _ => rfl, fun _ => rfl⟩

/-- C9: `Vector.normalize` of the zero vector is the zero vector (the
embedded method is total, so no exception), and for every nonzero vector
the magnitude of the normalized vector is exactly 1. -/
theorem normalize_spec (v : Vector) :
    (v = ⟨0, 0⟩ → v.normalize = ⟨0, 0⟩) ∧
    (v ≠ ⟨0, 0⟩ → v.normalize.magnitude = 1) := by
  constructor
  · rintro rfl
    simp [Vector.normalize, Vector.magnitude]
  · intro hv
    have hne : v.x ≠ 0 ∨ v.y ≠ 0 := by
      by_contra hc
      push_neg at hc
      exact hv (by cases v with | mk x y => simp_all)
    have hpos : 0 < v.x ^ 2 + v.y ^ 2 := by
      rcases hne with h | h
      · exact add_pos_of_pos_of_nonneg (pow_two_pos_of_ne_zero h) (sq_nonneg _)
      · exact add_pos_of_nonneg_of_pos (sq_nonneg _) (pow_two_pos_of_ne_zero h)
    have hm : 0 < v.magnitude := Real.sqrt_pos.mpr hpos
    have hmne : v.magnitude ≠ 0 := ne_of_gt hm
    unfold Vector.normalize
    rw [if_neg hmne]
    unfold Vector.magnitude
    rw [div_pow, div_pow, ← add_div, Real.sq_sqrt hpos.le,
      div_self (ne_of_gt hpos), Real.sqrt_one]

/-- C9 witness: the vector `(3, 4)` is nonzero and its normalization has
magnitude 1. -/
theorem normalize_spec_witness :
    (Vector.mk 3 4 ≠ ⟨0, 0⟩) ∧ (Vector.mk 3 4).normalize.magnitude = 1 := by
  have h : Vector.mk 3 4 ≠ ⟨0, 0⟩ := by
    simp [Vector.mk.injEq]
  exact ⟨h, (normalize_spec ⟨3, 4⟩).2 h⟩

/-- C10: `CircleShape.getAABB` returns the degenerate box
`{minX: 0, minY: 0, maxX: 0, maxY: 0}` for every circle, regardless of
center and radius; consequently, since the broad phase uses
`shape.getAABB()` as a body's world bounding box, any two circle bodies
always pass the broad phase — their bounds never reflect their actual
geometry. -/
theorem circle_getAABB_degenerate :
    (∀ c : CircleShape, c.getAABB = ⟨0, 0, 0, 0⟩) ∧
    (∀ (r1 r2 : RigidBody) (c1 c2 : CircleShape),
      broadPhase [⟨r1, some (ShapeVal.circle c1)⟩, ⟨r2, some (ShapeVal.circle c2)⟩] =
        [(⟨r1, some (ShapeVal.circle c1)⟩, ⟨r2, some (ShapeVal.circle c2)⟩)]) := by
  refine ⟨fun c => rfl, fun r1 r2 c1 c2 => ?_⟩
  have hp : broadPhasePasses ⟨r1, some (ShapeVal.circle c1)⟩
      ⟨r2, some (ShapeVal.circle c2)⟩ := by
    simp [broadPhasePasses, ShapeVal.getAABB, CircleShape.getAABB, isValidAABB]
  simp [broadPhase, broadPhaseInner, hp]

/-- C4: `RigidBody.integrate(dt)` throws exactly when `dt <= 0`; for
`dt > 0` it produces the state obtained by, in this order: acceleration
`F/m` and angular acceleration `torque/I` from the accumulators,
`v += a*dt`, `pos += v*dt` with the already-updated velocity, `v`
scaled by `linearDamping`, `w += angularA*dt`, `rotation += w*dt` with
the already-updated angular velocity, `w` scaled by `angularDamping`,
and both accumulators cleared.  The closed-form record below is exactly
that sequencing unrolled: damping multiplies the updated velocity, and
the position update sees the pre-damping updated velocity. -/
theorem integrate_spec (b : RigidBody) (dt : ℝ) :
    ((∃ msg, b.integrate dt = Except.error msg) ↔ dt ≤ 0) ∧
    (0 < dt →
      b.integrate dt = Except.ok { b with
        velocity := (b.velocity.add
          ((b.forceAccumulator.multiply (1 / b.mass)).multiply dt)).multiply
            b.linearDamping,
        position := b.position.add
          ((b.velocity.add
            ((b.forceAccumulator.multiply (1 / b.mass)).multiply dt)).multiply dt),
        angularVelocity :=
          (b.angularVelocity + b.torqueAccumulator / b.momentOfInertia * dt) *
            b.angularDamping,
        rotation :=
          b.rotation +
            (b.angularVelocity + b.torqueAccumulator / b.momentOfInertia * dt) * dt,
        forceAccumulator := ⟨0, 0⟩,
        torqueAccumulator := 0 }) := by
  constructor
  · constructor
    · rintro ⟨msg, hmsg⟩
      by_contra hdt
      simp [RigidBody.integrate, if_neg hdt] at hmsg
    · intro hdt
      exact ⟨"Time step must be greater than zero", by
        simp [RigidBody.integrate, if_pos hdt]⟩
  · intro hdt
    simp only [RigidBody.integrate, if_neg (not_le.mpr hdt)]
    rfl

/-- C4 witness: the spec of `integrate` instantiated at the default body
and `dt = 1`. -/
theorem integrate_spec_witness :
    0 < (1 : ℝ) ∧
    baseBody.integrate 1 = Except.ok { baseBody with
      velocity := (baseBody.velocity.add
        ((baseBody.forceAccumulator.multiply (1 / baseBody.mass)).multiply 1)).multiply
          baseBody.linearDamping,
      position := baseBody.position.add
        ((baseBody.velocity.add
          ((baseBody.forceAccumulator.multiply (1 / baseBody.mass)).multiply 1)).multiply 1),
      angularVelocity :=
        (baseBody.angularVelocity +
          baseBody.torqueAccumulator / baseBody.momentOfInertia * 1) *
          baseBody.angularDamping,
      rotation :=
        baseBody.rotation +
          (baseBody.angularVelocity +
            baseBody.torqueAccumulator / baseBody.momentOfInertia * 1) * 1,
      forceAccumulator := ⟨0, 0⟩,
      torqueAccumulator := 0 } :=
  ⟨by norm_num, (integrate_spec baseBody 1).2 (by norm_num)⟩

/-- C5: `ForceRegistry.updateForces(dt)` throws exactly when `dt <= 0`;
for `dt > 0` it applies every registered force and then integrates every
registered body, after which every registered body's force and torque
accumulators are zero (integration ends with `clearAccumulators`). -/
theorem updateForces_spec (reg : ForceRegistry) (dt : ℝ) :
    ((∃ msg, reg.updateForces dt = Except.error msg) ↔ dt ≤ 0) ∧
    (0 < dt →
      reg.updateForces dt = Except.ok (reg.updateForcesRun dt) ∧
      ∀ p ∈ (reg.updateForcesRun dt).forceBodyPairs,
        p.1.forceAccumulator = ⟨0, 0⟩ ∧ p.1.torqueAccumulator = 0) := by
  constructor
  · constructor
    · rintro ⟨msg, hmsg⟩
      by_contra hdt
      simp [ForceRegistry.updateForces, if_neg hdt] at hmsg
    · intro hdt
      exact ⟨"Invalid time step, must be greater than 0.", by
        simp [ForceRegistry.updateForces, if_pos hdt]⟩
  · intro hdt
    refine ⟨by simp [ForceRegistry.updateForces, not_le.mpr hdt], ?_⟩
    intro p hp
    simp only [ForceRegistry.updateForcesRun, List.map_map, List.mem_map] at hp
    obtain ⟨q, _, hq⟩ := hp
    rw [← hq]
    exact integrateBody_clears _ dt

/-- C5 witness: the spec of `updateForces` instantiated at a registry
holding one body under one gravity force and `dt = 1`. -/
theorem updateForces_spec_witness :
    0 < (1 : ℝ) ∧
    (registryEx.updateForces 1 = Except.ok (registryEx.updateForcesRun 1) ∧
      ∀ p ∈ (registryEx.updateForcesRun 1).forceBodyPairs,
        p.1.forceAccumulator = ⟨0, 0⟩ ∧ p.1.torqueAccumulator = 0) :=
  ⟨by norm_num, (updateForces_spec registryEx 1).2 (by norm_num)⟩

/-- Integrating every tracked body with a positive time step never
throws and maps `integrateBody` over the list. -/
theorem integrateAll_ok (bodies : List RigidBody) (dt : ℝ) (h : ¬ dt ≤ 0) :
    integrateAll bodies dt = Except.ok (bodies.map (fun b => b.integrateBody dt)) := by
  induction bodies with
  | nil => rfl
  | cons b rest ih => simp [integrateAll, RigidBody.integrate, if_neg h, ih]

/-- C2: `PhysicsWorld.step(dt)` throws exactly when `dt <= 0`; for
`dt > 0` it returns (no useful value beyond the updated state) after the
sequence: `ForceRegistry.updateForces(dt)`, then collision detection
over the tracked bodies (which produces the empty contact list), then
resolution of those detected contacts (resolving nothing), then
`integrate(dt)` on every tracked body. -/
theorem step_spec (w : PhysicsWorld) (dt : ℝ) :
    ((∃ msg, w.step dt = Except.error msg) ↔ dt ≤ 0) ∧
    (0 < dt →
      CollisionDectector.detectCollision w.bodies = [] ∧
      resolveCollisions (CollisionDectector.detectCollision w.bodies) = [] ∧
      w.step dt = Except.ok
        ⟨w.bodies.map (fun b => b.integrateBody dt),
         w.forceRegistry.updateForcesRun dt⟩) := by
  by_cases hdt : dt ≤ 0
  · exact ⟨⟨fun _ => hdt, fun _ => ⟨"Time step must be positive", by
      simp [PhysicsWorld.step, if_pos hdt]⟩⟩,
      fun hpos => absurd hdt (not_le.mpr hpos)⟩
  · have h1 : w.forceRegistry.updateForces dt =
        Except.ok (w.forceRegistry.updateForcesRun dt) := by
      simp [ForceRegistry.updateForces, hdt]
    have hok : w.step dt = Except.ok
        ⟨w.bodies.map (fun b => b.integrateBody dt),
         w.forceRegistry.updateForcesRun dt⟩ := by
      simp [PhysicsWorld.step, if_neg hdt, h1, integrateAll_ok _ _ hdt]
    refine ⟨⟨?_, fun h => absurd h hdt⟩, fun _ => ⟨rfl, rfl, hok⟩⟩
    rintro ⟨msg, hmsg⟩
    rw [hok] at hmsg
    exact Except.noConfusion hmsg

/-- C2 witness: the spec of `step` instantiated at a world with one
body, an empty registry and `dt = 1`. -/
theorem step_spec_witness :
    0 < (1 : ℝ) ∧
    (CollisionDectector.detectCollision worldEx.bodies = [] ∧
     resolveCollisions (CollisionDectector.detectCollision worldEx.bodies) = [] ∧
     worldEx.step 1 = Except.ok
       ⟨worldEx.bodies.map (fun b => b.integrateBody 1),
        worldEx.forceRegistry.updateForcesRun 1⟩) :=
  ⟨by norm_num, (step_spec worldEx 1).2 (by norm_num)⟩

/-- C8: a contact whose relative velocity at the contact point
(including the angular contributions) has positive dot product with the
contact normal is skipped by the resolution loop: no error, and both
bodies come out of `resolveCollisions` exactly as they went in. -/
theorem resolve_separating_noop (a b : RigidBody) (info : CollisionInfo)
    (h : 0 < (getRelativeVelocity a b info.contactPoint).dot info.normal) :
    resolveContact a b info = (a, b) ∧
    resolveCollisions [⟨a, b, info⟩] = [(a, b)] := by
  have h1 : resolveContact a b info = (a, b) := by
    simp only [resolveContact]
    rw [if_pos h]
  exact ⟨h1, by simp [resolveCollisions, h1]⟩

/-- C8 witness: a static body at the origin and a body at `(2, 0)`
moving away with velocity `(1, 0)` are separating at the contact
`(1, 0)` with normal `(1, 0)`, and resolution leaves both unchanged. -/
theorem resolve_separating_noop_witness :
    0 < (getRelativeVelocity staticBodyEx separatingBodyEx
          contactInfoSep.contactPoint).dot contactInfoSep.normal ∧
    resolveContact staticBodyEx separatingBodyEx contactInfoSep =
      (staticBodyEx, separatingBodyEx) := by
  have h : 0 < (getRelativeVelocity staticBodyEx separatingBodyEx
      contactInfoSep.contactPoint).dot contactInfoSep.normal := by
    simp [getRelativeVelocity, Vector.add, Vector.subtract, Vector.dot,
      staticBodyEx, separatingBodyEx, baseBody, contactInfoSep]
  exact ⟨h, (resolve_separating_noop _ _ _ h).1⟩

/-- C1 counterexample: the claim is false for `integrate`.  The body
`staticBodyEx` is static in the claim's sense (`inverseMass = 0` and
`inverseInertia = 0`), yet with the force `(1, 0)` accumulated,
`integrate(1)` changes its velocity: `integrate` divides by `mass` and
`momentOfInertia` and never consults the inverse fields, so a static
body is not immune to accumulated forces. -/
theorem static_body_integrate_counterexample :
    staticBodyEx.inverseMass = 0 ∧ staticBodyEx.inverseInertia = 0 ∧
    staticBodyEx.integrate 1 = Except.ok (staticBodyEx.integrateBody 1) ∧
    (staticBodyEx.integrateBody 1).velocity ≠ staticBodyEx.velocity := by
  refine ⟨rfl, rfl, by
    rw [RigidBody.integrate, if_neg (by norm_num : ¬ (1 : ℝ) ≤ 0)], ?_⟩
  simp [RigidBody.integrateBody, RigidBody.clearAccumulators, staticBodyEx,
    baseBody, Vector.add, Vector.multiply, Vector.mk.injEq]
  norm_num

/-- C1 amended: a static body (`inverseMass = inverseInertia = 0`) is
left with its velocity, angular velocity and position unchanged by the
collision resolution of any contact involving it, on either side of the
contact — every impulse, friction impulse and positional correction it
would receive is scaled by its zero inverse mass or inverse inertia.
(The `integrate` half of the original claim fails; see the
counterexample.) -/
theorem static_body_resolve_invariant (a b : RigidBody) (info : CollisionInfo) :
    (a.inverseMass = 0 → a.inverseInertia = 0 →
      ((resolveContact a b info).1.velocity = a.velocity ∧
       (resolveContact a b info).1.angularVelocity = a.angularVelocity ∧
       (resolveContact a b info).1.position = a.position)) ∧
    (b.inverseMass = 0 → b.inverseInertia = 0 →
      ((resolveContact a b info).2.velocity = b.velocity ∧
       (resolveContact a b info).2.angularVelocity = b.angularVelocity ∧
       (resolveContact a b info).2.position = b.position)) := by
  constructor <;> intro h1 h2 <;>
  · simp only [resolveContact]
    split_ifs <;> simp [h1, h2]

/-- C1 witness: the amended invariant applied to the concrete static
body against an approaching dynamic body. -/
theorem static_body_resolve_invariant_witness :
    staticBodyEx.inverseMass = 0 ∧ staticBodyEx.inverseInertia = 0 ∧
    ((resolveContact staticBodyEx approachBodyEx contactInfoEx).1.velocity =
        staticBodyEx.velocity ∧
     (resolveContact staticBodyEx approachBodyEx contactInfoEx).1.angularVelocity =
        staticBodyEx.angularVelocity ∧
     (resolveContact staticBodyEx approachBodyEx contactInfoEx).1.position =
        staticBodyEx.position) :=
  ⟨rfl, rfl,
    (static_body_resolve_invariant staticBodyEx approachBodyEx contactInfoEx).1 rfl rfl⟩

/-- C6: for world AABBs that overlap, `AABBAABBAlgorithm.detect` reports
a collision whose depth is the minimum of the x-axis and y-axis
overlaps, whose normal is the unit cardinal axis along the
minimum-overlap axis oriented from the box with the smaller center
coordinate toward the other (A toward B when A's center is smaller), and
whose contact point is the midpoint of the intersection rectangle; for
non-overlapping AABBs it reports no collision. -/
theorem aabb_detect_spec (bodyA bodyB : RigidBody) (A B : AABB) :
    (¬ aabbOverlap A B → AABBAABBAlgorithm.detect bodyA bodyB A B = none) ∧
    (aabbOverlap A B →
      ∃ ci, AABBAABBAlgorithm.detect bodyA bodyB A B = some ci ∧
        ci.depth =
          min (min A.maxX B.maxX - max A.minX B.minX)
              (min A.maxY B.maxY - max A.minY B.minY) ∧
        (if min A.maxX B.maxX - max A.minX B.minX <
            min A.maxY B.maxY - max A.minY B.minY then
          ci.normal =
            ⟨if (A.minX + A.maxX) / 2 < (B.minX + B.maxX) / 2 then 1 else -1, 0⟩
        else
          ci.normal =
            ⟨0, if (A.minY + A.maxY) / 2 < (B.minY + B.maxY) / 2 then 1 else -1⟩) ∧
        ci.contactPoint =
          ⟨(max A.minX B.minX + min A.maxX B.maxX) / 2,
           (max A.minY B.minY + min A.maxY B.maxY) / 2⟩) := by
  constructor
  · intro h
    simp only [AABBAABBAlgorithm.detect, if_pos h]
  · intro h
    simp only [AABBAABBAlgorithm.detect, if_neg (not_not_intro h)]
    by_cases hxy : min A.maxX B.maxX - max A.minX B.minX <
        min A.maxY B.maxY - max A.minY B.minY
    · exact ⟨_, rfl, by simp [hxy, min_eq_left hxy.le], by simp [hxy], rfl⟩
    · exact ⟨_, rfl, by simp [hxy, min_eq_right (not_lt.mp hxy)], by simp [hxy], rfl⟩

/-- C6 witness: the specification's test vector — the boxes
`[-1, -1, 1, 1]` and `[0, -1, 2, 1]` (centers `(0, 0)` and `(1, 0)`)
overlap and produce a contact record. -/
theorem aabb_detect_spec_witness :
    aabbOverlap aabbAEx aabbBEx ∧
    ∃ ci, AABBAABBAlgorithm.detect baseBody baseBody aabbAEx aabbBEx = some ci ∧
      ci.depth =
        min (min aabbAEx.maxX aabbBEx.maxX - max aabbAEx.minX aabbBEx.minX)
            (min aabbAEx.maxY aabbBEx.maxY - max aabbAEx.minY aabbBEx.minY) ∧
      (if min aabbAEx.maxX aabbBEx.maxX - max aabbAEx.minX aabbBEx.minX <
          min aabbAEx.maxY aabbBEx.maxY - max aabbAEx.minY aabbBEx.minY then
        ci.normal =
          ⟨if (aabbAEx.minX + aabbAEx.maxX) / 2 < (aabbBEx.minX + aabbBEx.maxX) / 2
              then 1 else -1, 0⟩
      else
        ci.normal =
          ⟨0, if (aabbAEx.minY + aabbAEx.maxY) / 2 < (aabbBEx.minY + aabbBEx.maxY) / 2
              then 1 else -1⟩) ∧
      ci.contactPoint =
        ⟨(max aabbAEx.minX aabbBEx.minX + min aabbAEx.maxX aabbBEx.maxX) / 2,
         (max aabbAEx.minY aabbBEx.minY + min aabbAEx.maxY aabbBEx.maxY) / 2⟩ := by
  have h : aabbOverlap aabbAEx aabbBEx := by
    simp only [aabbOverlap, aabbAEx, aabbBEx]
    norm_num
  exact ⟨h, (aabb_detect_spec baseBody baseBody aabbAEx aabbBEx).2 h⟩

/-- C7 counterexample: the claim is false for the circle-circle
narrow-phase algorithm.  The two unit circles both centered at the
origin satisfy `d = 0 ≤ r1 + r2 = 2` — the shape-level intersection test
agrees — yet `CircleCircleAlgorithm.detect` reports no collision (it is
an unimplemented stub returning `null`), so it neither reports the
collision nor any penetration depth. -/
theorem circleCircle_detect_counterexample :
    CircleShape.intersectsCircle ⟨⟨0, 0⟩, 1⟩ ⟨⟨0, 0⟩, 1⟩ ∧
    CircleCircleAlgorithm.detect circleEntityEx circleEntityEx = none := by
  refine ⟨?_, rfl⟩
  unfold CircleShape.intersectsCircle Vector.subtract Vector.magnitude
  norm_num

/-- C7 amended: for circles centered at `(0, 0)` and `(d, 0)` with
`d ≥ 0`, the shape-level test `CircleShape.intersects` (the
`ShapeType.CIRCLE` branch) reports a collision exactly when
`d ≤ r1 + r2`; the narrow-phase `CircleCircleAlgorithm.detect`, however,
is a stub that returns no collision for every pair of entities, so no
penetration depth or normal is ever reported for circle-circle
contacts. -/
theorem circleCircle_amended (d r1 r2 : ℝ) (hd : 0 ≤ d) :
    (CircleShape.intersectsCircle ⟨⟨0, 0⟩, r1⟩ ⟨⟨d, 0⟩, r2⟩ ↔ d ≤ r1 + r2) ∧
    (∀ eA eB : PhysicsEntity, CircleCircleAlgorithm.detect eA eB = none) := by
  refine ⟨?_, fun _ _ => rfl⟩
  unfold CircleShape.intersectsCircle Vector.subtract Vector.magnitude
  have h1 : ((0 : ℝ) - d) ^ 2 + ((0 : ℝ) - 0) ^ 2 = d ^ 2 := by ring
  rw [show ({ x := (0 : ℝ) - d, y := (0 : ℝ) - 0 } : Vector).x = (0 : ℝ) - d from rfl]
  rw [show ({ x := (0 : ℝ) - d, y := (0 : ℝ) - 0 } : Vector).y = (0 : ℝ) - 0 from rfl]
  rw [h1, Real.sqrt_sq hd]

/-- C7 witness: the amended equivalence at `d = 1`, `r1 = r2 = 1`. -/
theorem circleCircle_amended_witness :
    (0 : ℝ) ≤ 1 ∧
    (CircleShape.intersectsCircle ⟨⟨0, 0⟩, 1⟩ ⟨⟨1, 0⟩, 1⟩ ↔ (1 : ℝ) ≤ 1 + 1) :=
  ⟨by norm_num, (circleCircle_amended 1 1 1 (by norm_num)).1⟩

end Engine
